import Mathlib

/-!
# Verification of the tssh SSH proxy (package sshproxy)

A shallow embedding of the SSH connection proxy in `sshproxy` (the
non-Windows build): the wrapped connection `sshConn` and its `Close`,
the constructor `New`, the authentication callback `proxyAuthCallback`,
the connection callback `connCallback`, the channel handler
`channelHandler`, the stream/request proxy loop `proxyChannelStreams`,
the outbound dial `dialDestination`, and `forwardChannelRequest`.

External effects (network dials, channel accepts/opens, wire I/O) are
modelled by passing their outcomes as explicit parameters, and the
side effects the spec talks about (closing handles, reporting errors)
are recorded in event traces.  Go channels are modelled by their
capacity and buffer, with a send that blocks when no buffer space is
free and no receiver is ready.
-/

namespace Sshproxy

/-- Bytes of an SSH wire payload, modelled as a list of byte values. -/
abbrev Bytes := List Nat

/-- A value stored in the per-connection context store.  The proxy stores
strings (the resolved destination under the key tailscaleDevice) and
outbound client handles (under the key sshContextSSHClient); a client
handle is an `Option Nat` so that a nil `*gossh.Client` pointer is
representable (`Option.none`), matching the nil check in the cleanup. -/
inductive CtxValue where
  | str (s : String)
  | client (id : Option Nat)
  deriving DecidableEq, Repr

/-- The per-connection `ssh.Context` of the gliderlabs server, as the proxy
uses it: a string-keyed value store plus the connection identity data the
proxy reads (`ctx.User()`, `ctx.ClientVersion()`, `ctx.ServerVersion()`). -/
structure SSHContext where
  store : List (String × CtxValue)
  user : String
  clientVersion : String
  serverVersion : String
  deriving DecidableEq, Repr

/-- Context key for the resolved destination (`tailscaleDevice`). -/
def tailscaleDevice : String := "tailscaleDevice"

/-- Context key for the stored outbound client (`sshContextSSHClient`). -/
def sshContextSSHClient : String := "sshClient"

/-- `ctx.Value(k)`: the most recently stored value under `k`, if any. -/
def SSHContext.value (ctx : SSHContext) (k : String) : Option CtxValue :=
  (ctx.store.find? (fun p => p.1 == k)).map Prod.snd

/-- `ctx.SetValue(k, v)`. -/
def SSHContext.setValue (ctx : SSHContext) (k : String) (v : CtxValue) : SSHContext :=
  { ctx with store := (k, v) :: ctx.store }

/-- The Go type assertion `ctx.Value(k).(string)`: the asserted string and
the `ok` flag; the zero value `""` with `ok = false` when the stored value
is absent or not a string. -/
def SSHContext.assertString (ctx : SSHContext) (k : String) : String × Bool :=
  match ctx.value k with
  | some (CtxValue.str s) => (s, true)
  | _ => ("", false)

/-- The Go type assertion `ctx.Value(k).(*gossh.Client)`: the asserted
client pointer (`Option.none` for nil) and the `ok` flag; nil with
`ok = false` when the stored value is absent or not a client. -/
def SSHContext.assertClient (ctx : SSHContext) (k : String) : Option Nat × Bool :=
  match ctx.value k with
  | some (CtxValue.client c) => (c, true)
  | _ => (none, false)

/-! ## Connection wrapping and cleanup -/

/-- Observable side effects of closing the wrapped connection:
closing an outbound client handle, closing the underlying transport,
and posting an error on the error stream. -/
inductive Event where
  | clientClose (id : Nat)
  | transportClose
  | errorReport (msg : String)
  deriving DecidableEq, Repr

/-- The cleanup closure installed by `connCallback`: it asserts the
outbound client stored under `sshContextSSHClient` and, when the assertion
succeeds and the client is non-nil, closes the client; otherwise it does
nothing.  `clientCloseErr` is the result of `client.Close()`, which the
source discards (the call is a bare statement), so it does not affect the
trace. -/
def cleanupFunc (ctx : SSHContext) (clientCloseErr : Option String) : List Event :=
  match ctx.assertClient sshContextSSHClient with
  | (some id, true) => [Event.clientClose id]
  | _ => []

/-- `sshConn.Close`: runs the cleanup function first, then closes the
wrapped transport connection and returns exactly that result.
`connCloseErr` is the underlying transport's `Close` result and
`clientCloseErr` the outbound client's; the returned pair is the event
trace, in order, and the error returned to the caller. -/
def sshConnClose (ctx : SSHContext) (connCloseErr clientCloseErr : Option String) :
    List Event × Option String :=
  (cleanupFunc ctx clientCloseErr ++ [Event.transportClose], connCloseErr)

/-- The error reports contained in an event trace. -/
def errorReportsIn (tr : List Event) : List Event :=
  tr.filter (fun e => match e with
    | Event.errorReport _ => true
    | _ => false)

/-- The client-close events contained in an event trace. -/
def clientClosesIn (tr : List Event) : List Event :=
  tr.filter (fun e => match e with
    | Event.clientClose _ => true
    | _ => false)

/-- `connCallback` as it affects the context: it stores the empty string
under `tailscaleDevice` (the destination resolution is left hardcoded to
an empty value in the source) and wraps the connection with the cleanup
closure.  The wrapped connection's behaviour is `sshConnClose`. -/
def connCallback (ctx : SSHContext) : SSHContext :=
  ctx.setValue tailscaleDevice (CtxValue.str "")

/-! ## Go channels, the proxy constructor and the error stream -/

/-- A Go channel as the proxy observes it: its capacity and the queue of
buffered values. -/
structure GoChan (α : Type) where
  capacity : Nat
  buffer : List α
  deriving DecidableEq, Repr

/-- Outcome of a send operation at a moment when no receiver is ready. -/
inductive SendResult where
  | completed
  | blocked
  deriving DecidableEq, Repr

/-- A plain Go send `ch <- x` at a moment when no receiver is ready: it
completes only when buffer space is free, and otherwise the sender blocks.
The source posts every error with a plain send statement (there is no
`select` with a `default` branch anywhere), so this is the semantics of
every error post and of every completion-signal post. -/
def chanSend {α : Type} (ch : GoChan α) (x : α) : SendResult × GoChan α :=
  if ch.buffer.length < ch.capacity then
    (SendResult.completed, { ch with buffer := ch.buffer ++ [x] })
  else
    (SendResult.blocked, ch)

/-- The proxy state that `New` constructs, restricted to the fields the
claims are about.  `version` is the announced version string
`SSH-2.0-tssh_<version>_<GOOS>`. -/
structure SSHProxyState where
  addr : String
  hostname : String
  version : String
  idleTimeout : Nat
  maxTimeout : Nat
  errorChan : GoChan String
  deriving DecidableEq, Repr

/-- `New(version, localAddress, hostname, hostKeyDir, shutdownC,
idleTimeout, maxTimeout)`: builds the proxy state and returns it with a
nil error; no input is rejected.  `goos` stands for `runtime.GOOS`;
`shutdownC` is the caller's shutdown channel, opaque here and modelled as
a token; `hostKeyDir` is accepted but unused by the source.  The error
channel is created with `make(chan error)`, so its capacity is 0. -/
def New (goos version localAddress hostname hostKeyDir : String)
    (shutdownC idleTimeout maxTimeout : Nat) :
    Option SSHProxyState × Option String :=
  (some { addr := localAddress
          hostname := hostname
          version := "SSH-2.0-tssh_" ++ version ++ "_" ++ goos
          idleTimeout := idleTimeout
          maxTimeout := maxTimeout
          errorChan := { capacity := 0, buffer := [] } },
   none)

/-! ## Destination dial and authentication -/

/-- The outbound `gossh.ClientConfig` fields the claims are about:
`User` and `ClientVersion` (`HostKeyCallback` and `Auth` carry no data a
claim mentions). -/
structure ClientConfig where
  user : String
  clientVersion : String
  deriving DecidableEq, Repr

/-- `dialDestination(ctx)`: asserts the destination string stored under
`tailscaleDevice`; when the guard `!ok && tailscaleServer == ""` fires it
returns an error without dialing, and otherwise it builds a client config
with `User: ctx.User()` and `ClientVersion: ctx.ServerVersion()` and dials
the destination.  `dialResult` is the network's answer to the dial (a
client handle, or `Option.none` for a failed dial).  The first component
records the dial attempt (address and config), `Option.none` when no dial
was attempted; the second is the function's result. -/
def dialDestination (ctx : SSHContext) (dialResult : Option Nat) :
    Option (String × ClientConfig) × Except String Nat :=
  let a := ctx.assertString tailscaleDevice
  let tailscaleServer := a.1
  let ok := a.2
  if !ok && tailscaleServer == "" then
    (none, Except.error "failed to connect to server")
  else
    let clientConfig : ClientConfig :=
      { user := ctx.user, clientVersion := ctx.serverVersion }
    match dialResult with
    | some id => (some (tailscaleServer, clientConfig), Except.ok id)
    | none => (some (tailscaleServer, clientConfig),
               Except.error "failed to connect to destination SSH server")

/-- `proxyAuthCallback(ctx, key)`: dials the destination; on failure it
returns false without touching the context; on success it stores the
outbound client under `sshContextSSHClient` and returns true.  The result
is (authentication decision, context afterwards, the dial attempt made,
if any). -/
def proxyAuthCallback (ctx : SSHContext) (dialResult : Option Nat) :
    Bool × SSHContext × Option (String × ClientConfig) :=
  match dialDestination ctx dialResult with
  | (attempt, Except.error _) => (false, ctx, attempt)
  | (attempt, Except.ok id) =>
      (true, ctx.setValue sshContextSSHClient (CtxValue.client (some id)), attempt)

/-! ## Channel handling -/

/-- An inbound channel-open request: `newChan.ChannelType()` and
`newChan.ExtraData()`. -/
structure NewChannel where
  chanType : String
  extraData : Bytes
  deriving DecidableEq, Repr

/-- Steps `channelHandler` performs, in order.  `connClosed` would record
a close of the whole server connection; the handler never emits it.
`remoteOpened` records the single `client.OpenChannel` call with its
channel type, extra data and the client it is made on. -/
inductive HStep where
  | rejected (reason : String) (msg : String)
  | errorReported (op : String)
  | localAccepted
  | remoteOpened (chanType : String) (extraData : Bytes) (client : Option Nat)
  | proxied
  | remoteClosed
  | localClosed
  | connClosed
  deriving DecidableEq, Repr

/-- `channelHandler(srv, conn, newChan, ctx)` as a step trace.  A channel
type other than "session" and "direct-tcpip" is rejected with reason
`UnknownChannelType` and a message naming the type (a failed reject is
reported on the error stream).  Otherwise the inbound channel is accepted
(`acceptOk` is the outcome; failure is reported and the handler returns),
the outbound client is asserted from the context (a failed assertion is
reported and the accepted local channel is closed by its defer), and one
outbound channel of the same type and extra data is opened on it
(`openOk` is the outcome; failure is reported).  On success the pair is
proxied and the deferred closes run on return.  `rejectOk` is the outcome
of `newChan.Reject`. -/
def channelHandler (nc : NewChannel) (ctx : SSHContext)
    (rejectOk acceptOk openOk : Bool) : List HStep :=
  if nc.chanType != "session" && nc.chanType != "direct-tcpip" then
    let msg := "channel type " ++ nc.chanType ++ " is not supported"
    if rejectOk then
      [HStep.rejected "UnknownChannelType" msg]
    else
      [HStep.rejected "UnknownChannelType" msg,
       HStep.errorReported "error rejecting SSH channel"]
  else
    if !acceptOk then
      [HStep.errorReported "failed to accept session channel"]
    else
      match ctx.assertClient sshContextSSHClient with
      | (c, true) =>
          if openOk then
            [HStep.localAccepted, HStep.remoteOpened nc.chanType nc.extraData c,
             HStep.proxied, HStep.remoteClosed, HStep.localClosed]
          else
            [HStep.localAccepted, HStep.remoteOpened nc.chanType nc.extraData c,
             HStep.errorReported "failed to open remote channel", HStep.localClosed]
      | (_, false) =>
          [HStep.localAccepted,
           HStep.errorReported "could not retrieve client from context",
           HStep.localClosed]

/-- The outbound channel opens contained in a handler trace. -/
def opensIn (tr : List HStep) : List HStep :=
  tr.filter (fun st => match st with
    | HStep.remoteOpened _ _ _ => true
    | _ => false)

/-- The server-connection closes contained in a handler trace. -/
def connClosesIn (tr : List HStep) : List HStep :=
  tr.filter (fun st => match st with
    | HStep.connClosed => true
    | _ => false)

/-! ## The channel pair proxy loop -/

/-- An out-of-band channel request: `req.Type`, `req.WantReply`,
`req.Payload`. -/
structure ChanRequest where
  typ : String
  wantReply : Bool
  payload : Bytes
  deriving DecidableEq, Repr

/-- The completion-signal channel of `proxyChannel`:
`done := make(chan struct, 2)` — a buffered channel of capacity 2 shared
by the two primary copy goroutines. -/
def doneChan : GoChan Unit := { capacity := 2, buffer := [] }

/-- One outcome of the three-way `select` in `proxyChannelStreams`:
a request (or a nil from a closed stream) arriving from the local or the
remote side, or a receive from the completion channel `done`. -/
inductive LoopEvent where
  | localReq (req : Option ChanRequest)
  | remoteReq (req : Option ChanRequest)
  | doneSignal
  deriving DecidableEq, Repr

/-- The request-forwarding loop of `proxyChannelStreams`, driven by the
sequence of select outcomes: `true` when the loop has returned within the
given events.  The loop returns on a nil request from either side, on a
failed forward (`fwdOk` gives each forward's outcome), or on ONE receive
from `done`.  When it returns, `proxyChannel` and then `channelHandler`
return, and the deferred `Close` calls of the channel pair run. -/
def proxyChannelStreams (fwdOk : ChanRequest → Bool) :
    List LoopEvent → Bool
  | [] => false
  | LoopEvent.localReq none :: _ => true
  | LoopEvent.localReq (some r) :: rest =>
      if fwdOk r then proxyChannelStreams fwdOk rest else true
  | LoopEvent.remoteReq none :: _ => true
  | LoopEvent.remoteReq (some r) :: rest =>
      if fwdOk r then proxyChannelStreams fwdOk rest else true
  | LoopEvent.doneSignal :: _ => true

/-- The completion-signal posts contained in a select-outcome sequence. -/
def donePostsIn (evs : List LoopEvent) : Nat :=
  (evs.filter (fun e => match e with
    | LoopEvent.doneSignal => true
    | _ => false)).length

/-! ## Request forwarding -/

/-- `forwardChannelRequest(sshChan, req)`: sends
`(req.Type, req.WantReply, req.Payload)` on the peer channel and relays
the reply to the original sender via `req.Reply(reply, nil)`.
In the x/crypto/ssh API, `Channel.SendRequest` waits for the peer's
boolean reply only when the want-reply flag is set (channel-specific
request replies carry no payload at this protocol layer, and the payload
argument of `Request.Reply` is ignored for them), and `Request.Reply` is
a no-op when the request did not want a reply.  `peerAnswer` is the
boolean the ultimate peer replies when asked; `sendOk` and `replyOk` are
the I/O outcomes of the two wire operations.  The result is (the request
put on the wire toward the peer, the reply traffic produced toward the
original sender, the function's error result). -/
def forwardChannelRequest (req : ChanRequest)
    (peerAnswer sendOk replyOk : Bool) :
    (String × Bool × Bytes) × Option Bool × Except String Unit :=
  let sent := (req.typ, req.wantReply, req.payload)
  if sendOk = false then
    (sent, none, Except.error "failed to send request")
  else
    let reply := if req.wantReply then peerAnswer else false
    if req.wantReply = false then
      (sent, none, Except.ok Unit.unit)
    else if replyOk then
      (sent, some reply, Except.ok Unit.unit)
    else
      (sent, none, Except.error "failed to reply to request")

/-! ## Concrete fixtures -/

/-- A base inbound context: empty store, identity data filled in. -/
def ctxBase : SSHContext :=
  { store := []
    user := "alice"
    clientVersion := "SSH-2.0-OpenSSH_9.6"
    serverVersion := "SSH-2.0-tssh_v_linux" }

/-- A context in which authentication has stored outbound client 7. -/
def ctxClient : SSHContext :=
  ctxBase.setValue sshContextSSHClient (CtxValue.client (some 7))

/-- A context holding a resolved, nonempty destination address. -/
def ctxResolved : SSHContext :=
  ctxBase.setValue tailscaleDevice (CtxValue.str "host:22")

/-- The proxy state `New "linux" "v" ":2222" "host" "keys" 0 30 300`
builds. -/
def proxyFixture : SSHProxyState :=
  { addr := ":2222"
    hostname := "host"
    version := "SSH-2.0-tssh_v_linux"
    idleTimeout := 30
    maxTimeout := 300
    errorChan := { capacity := 0, buffer := [] } }

/-! ## Theorems -/

/-- C1.  Closing the wrapped connection runs the cleanup trace first and
exactly one underlying transport close last; when a (non-nil) outbound
client handle is stored in the context the cleanup closes exactly that
client, exactly once; when no client value is stored, or a nil one is,
the cleanup trace is empty (a no-op, and `cleanupFunc` is a total
function, so it never faults). -/
theorem close_runs_cleanup_first (ctx : SSHContext)
    (connErr clientErr : Option String) :
    (sshConnClose ctx connErr clientErr).1 =
        cleanupFunc ctx clientErr ++ [Event.transportClose] ∧
    (∀ id, ctx.assertClient sshContextSSHClient = (some id, true) →
        cleanupFunc ctx clientErr = [Event.clientClose id]) ∧
    ((ctx.assertClient sshContextSSHClient).2 = false →
        cleanupFunc ctx clientErr = []) ∧
    ((ctx.assertClient sshContextSSHClient).1 = none →
        cleanupFunc ctx clientErr = []) := by
  rcases ha : ctx.assertClient sshContextSSHClient with ⟨c, ok⟩
  refine ⟨rfl, ?_, ?_, ?_⟩
  · intro id h
    simp only [Prod.mk.injEq] at h
    obtain ⟨h1, h2⟩ := h
    subst h1
    subst h2
    simp [cleanupFunc, ha]
  · intro h
    have hok : ok = false := h
    subst hok
    cases c <;> simp [cleanupFunc, ha]
  · intro h
    have hc : c = none := h
    subst hc
    cases ok <;> simp [cleanupFunc, ha]

/-- C1 witness: at a context holding client 7 the cleanup closes exactly
client 7, and at the base context it is a no-op. -/
theorem close_runs_cleanup_first_witness :
    cleanupFunc ctxClient none = [Event.clientClose 7] ∧
    cleanupFunc ctxBase none = [] := by
  constructor
  · exact (close_runs_cleanup_first ctxClient none none).2.1 7 (by decide)
  · exact (close_runs_cleanup_first ctxBase none none).2.2.1 (by decide)

/-- C10.  `sshConn.Close` returns exactly the underlying transport's
close result, whatever the outbound client's close result was, and its
trace contains no error report toward the error stream. -/
theorem close_returns_transport_result (ctx : SSHContext)
    (connErr clientErr : Option String) :
    (sshConnClose ctx connErr clientErr).2 = connErr ∧
    errorReportsIn (sshConnClose ctx connErr clientErr).1 = [] := by
  refine ⟨rfl, ?_⟩
  simp only [sshConnClose, errorReportsIn, cleanupFunc]
  rcases ha : ctx.assertClient sshContextSSHClient with ⟨c, ok⟩
  cases c <;> cases ok <;> simp [List.filter]

/-- C9.  `New` never fails: for every configuration input it returns a
present proxy state and a nil error. -/
theorem new_never_fails (goos version localAddress hostname hostKeyDir : String)
    (shutdownC idleTimeout maxTimeout : Nat) :
    (New goos version localAddress hostname hostKeyDir
        shutdownC idleTimeout maxTimeout).1.isSome = true ∧
    (New goos version localAddress hostname hostKeyDir
        shutdownC idleTimeout maxTimeout).2 = none :=
  ⟨rfl, rfl⟩

/-- C9 witness: at a concrete configuration, `New` returns a present
state and a nil error. -/
theorem new_never_fails_witness :
    (New "linux" "v" ":2222" "host" "keys" 0 30 300).1.isSome = true ∧
    (New "linux" "v" ":2222" "host" "keys" 0 30 300).2 = none :=
  new_never_fails "linux" "v" ":2222" "host" "keys" 0 30 300

/-- C10 witness: at a context holding client 7, closing the wrapped
connection returns the transport's close error and reports nothing,
whatever the client close error was. -/
theorem close_returns_transport_result_witness :
    (sshConnClose ctxClient (some "transport fault") (some "client fault")).2 =
      some "transport fault" ∧
    errorReportsIn
      (sshConnClose ctxClient (some "transport fault") (some "client fault")).1 = [] :=
  close_returns_transport_result ctxClient (some "transport fault")
    (some "client fault")

/-- C3 counterexample.  The claim says a posted error completes without
waiting for a consumer.  On the proxy state `New` actually builds, the
error channel is unbuffered and a post with no consumer ready blocks. -/
theorem error_post_blocks_counterexample :
    ((New "linux" "v" ":2222" "host" "keys" 0 30 300).1.map
        (fun p => (chanSend p.errorChan "authentication error").1)) =
      some SendResult.blocked ∧
    SendResult.blocked ≠ SendResult.completed := by
  exact ⟨rfl, by decide⟩

/-- C3 amended.  Posting an operational error is a plain send on the
unbuffered error channel `New` creates: with no consumer ready it blocks
the posting task; no path drops the error. -/
theorem error_post_is_blocking_send
    (goos version localAddress hostname hostKeyDir : String)
    (shutdownC idleTimeout maxTimeout : Nat) (e : String) (p : SSHProxyState)
    (hp : (New goos version localAddress hostname hostKeyDir
        shutdownC idleTimeout maxTimeout).1 = some p) :
    p.errorChan.capacity = 0 ∧
    (chanSend p.errorChan e).1 = SendResult.blocked := by
  have hp2 : p = { addr := localAddress
                   hostname := hostname
                   version := "SSH-2.0-tssh_" ++ version ++ "_" ++ goos
                   idleTimeout := idleTimeout
                   maxTimeout := maxTimeout
                   errorChan := { capacity := 0, buffer := [] } } := by
    have := hp
    simp only [New, Option.some.injEq] at this
    exact this.symm
  subst hp2
  exact ⟨rfl, rfl⟩

/-- C3 amended witness: at a concrete configuration, the constructed
error channel has capacity 0 and a post with no consumer blocks. -/
theorem error_post_is_blocking_send_witness :
    proxyFixture.errorChan.capacity = 0 ∧
    (chanSend proxyFixture.errorChan "dial error").1 = SendResult.blocked :=
  error_post_is_blocking_send "linux" "v" ":2222" "host" "keys" 0 30 300
    "dial error" proxyFixture rfl

/-- C5.  Evaluation at the failing input: in the context `connCallback`
leaves behind (it always stores the empty string under `tailscaleDevice`),
the guard of `dialDestination` does not fire, so a dial IS attempted, at
the empty address; authentication still returns false, but only because
that dial fails.  The claim's "no outbound dial attempt occurs" fails for
an empty stored destination. -/
theorem empty_destination_still_dials :
    (dialDestination (connCallback ctxBase) none).1 =
      some ("", { user := "alice", clientVersion := "SSH-2.0-tssh_v_linux" }) ∧
    (proxyAuthCallback (connCallback ctxBase) none).1 = false ∧
    (dialDestination ctxBase none).1 = none := by
  exact ⟨rfl, rfl, rfl⟩

/-- C7 counterexample.  At a context with a resolved destination, the
outbound dial's client config carries the server's announced version
(`ctx.ServerVersion()`), which differs from the inbound client's announced
version — the claim's "client version set to the original inbound
client's announced protocol version" is false here. -/
theorem dial_version_counterexample :
    (dialDestination ctxResolved (some 1)).1 =
      some ("host:22",
        { user := "alice", clientVersion := "SSH-2.0-tssh_v_linux" }) ∧
    ctxResolved.clientVersion = "SSH-2.0-OpenSSH_9.6" ∧
    ("SSH-2.0-tssh_v_linux" : String) ≠ "SSH-2.0-OpenSSH_9.6" := by
  exact ⟨rfl, rfl, by decide⟩

/-- C7 amended.  Whenever a dial is attempted, its config carries the
inbound identity's user name and the proxy server's own announced
version string (the inbound connection's server version), not the
inbound client's announced version. -/
theorem dial_config_user_and_version (ctx : SSHContext) (dialResult : Option Nat)
    (addr : String) (cfg : ClientConfig)
    (h : (dialDestination ctx dialResult).1 = some (addr, cfg)) :
    cfg.user = ctx.user ∧ cfg.clientVersion = ctx.serverVersion := by
  by_cases hg : (!(ctx.assertString tailscaleDevice).2 &&
      (ctx.assertString tailscaleDevice).1 == "") = true
  · simp only [dialDestination, hg, if_true] at h
    exact absurd h (by simp)
  · rw [Bool.not_eq_true] at hg
    cases dialResult with
    | some id =>
        simp only [dialDestination, hg, Bool.false_eq_true, if_false,
          Option.some.injEq, Prod.mk.injEq] at h
        rw [← h.2]
        exact ⟨rfl, rfl⟩
    | none =>
        simp only [dialDestination, hg, Bool.false_eq_true, if_false,
          Option.some.injEq, Prod.mk.injEq] at h
        rw [← h.2]
        exact ⟨rfl, rfl⟩

/-- C7 amended witness: at the resolved fixture the dialed config's user
is the inbound user and its client version is the server's announced
version. -/
theorem dial_config_user_and_version_witness :
    ({ user := "alice", clientVersion := "SSH-2.0-tssh_v_linux" } :
        ClientConfig).user = ctxResolved.user ∧
    ({ user := "alice", clientVersion := "SSH-2.0-tssh_v_linux" } :
        ClientConfig).clientVersion = ctxResolved.serverVersion :=
  dial_config_user_and_version ctxResolved (some 1) "host:22"
    { user := "alice", clientVersion := "SSH-2.0-tssh_v_linux" } rfl

/-- A concrete session channel-open request. -/
def sessionOpen : NewChannel := { chanType := "session", extraData := [1, 2] }

/-- A concrete channel-open request of an unsupported type. -/
def x11Open : NewChannel := { chanType := "x11", extraData := [3] }

/-- A concrete pty request that wants a reply. -/
def ptyReq : ChanRequest := { typ := "pty-req", wantReply := true, payload := [] }

/-- C2.  For an inbound channel-open of type "session" or "direct-tcpip"
that is accepted, with an outbound client stored in the context, the
handler performs exactly one outbound channel open, on the stored client,
with the inbound request's channel type and extra data — whether or not
that open then succeeds. -/
theorem accepted_channel_mirrored (nc : NewChannel) (ctx : SSHContext)
    (rejectOk openOk : Bool) (id : Nat)
    (hty : nc.chanType = "session" ∨ nc.chanType = "direct-tcpip")
    (hcl : ctx.assertClient sshContextSSHClient = (some id, true)) :
    opensIn (channelHandler nc ctx rejectOk true openOk) =
      [HStep.remoteOpened nc.chanType nc.extraData (some id)] := by
  have hguard : (nc.chanType != "session" && nc.chanType != "direct-tcpip") = false := by
    rcases hty with h | h <;> simp [h]
  simp only [channelHandler, hguard, Bool.false_eq_true, if_false, hcl]
  cases openOk <;> simp [opensIn]

/-- C2 witness: a concrete session open at a context holding client 7 is
mirrored by exactly one outbound open with identical type and data. -/
theorem accepted_channel_mirrored_witness :
    opensIn (channelHandler sessionOpen ctxClient true true true) =
      [HStep.remoteOpened sessionOpen.chanType sessionOpen.extraData (some 7)] :=
  accepted_channel_mirrored sessionOpen ctxClient true true 7 (Or.inl rfl)
    (by decide)

/-- C8.  A channel-open whose type is neither "session" nor
"direct-tcpip" is rejected with the UnknownChannelType reason and a
message echoing the requested type name; the handler opens no outbound
channel and never closes the server connection, so further channel
requests remain possible. -/
theorem unknown_channel_rejected (nc : NewChannel) (ctx : SSHContext)
    (rejectOk acceptOk openOk : Bool)
    (h1 : nc.chanType ≠ "session") (h2 : nc.chanType ≠ "direct-tcpip") :
    (∃ rest, channelHandler nc ctx rejectOk acceptOk openOk =
        HStep.rejected "UnknownChannelType"
          ("channel type " ++ nc.chanType ++ " is not supported") :: rest) ∧
    opensIn (channelHandler nc ctx rejectOk acceptOk openOk) = [] ∧
    connClosesIn (channelHandler nc ctx rejectOk acceptOk openOk) = [] := by
  have hguard : (nc.chanType != "session" && nc.chanType != "direct-tcpip") = true := by
    simp [h1, h2]
  cases rejectOk with
  | false =>
      refine ⟨⟨[HStep.errorReported "error rejecting SSH channel"], ?_⟩, ?_, ?_⟩ <;>
        simp [channelHandler, hguard, opensIn, connClosesIn]
  | true =>
      refine ⟨⟨[], ?_⟩, ?_, ?_⟩ <;>
        simp [channelHandler, hguard, opensIn, connClosesIn]

/-- C8 witness: a concrete "x11" open is rejected with the echoing
message, with no outbound open and no connection close. -/
theorem unknown_channel_rejected_witness :
    (∃ rest, channelHandler x11Open ctxBase true true true =
        HStep.rejected "UnknownChannelType"
          ("channel type " ++ x11Open.chanType ++ " is not supported") :: rest) ∧
    opensIn (channelHandler x11Open ctxBase true true true) = [] ∧
    connClosesIn (channelHandler x11Open ctxBase true true true) = [] :=
  unknown_channel_rejected x11Open ctxBase true true true (by decide) (by decide)

/-- C4 counterexample.  The claim says the pair is closed only after both
primary copy directions posted completion.  The forwarding loop returns —
and with it the deferred closes of the pair run — after a single receive
from the completion channel, i.e. after one post, not two. -/
theorem pair_closed_after_single_post :
    proxyChannelStreams (fun _ => true) [LoopEvent.doneSignal] = true ∧
    donePostsIn [LoopEvent.doneSignal] = 1 ∧
    ¬ 2 ≤ donePostsIn [LoopEvent.doneSignal] := by
  exact ⟨rfl, rfl, by decide⟩

/-- C4 amended.  The pair is closed when the forwarding loop returns,
which happens already at the FIRST completion signal it receives (it also
returns on a nil request or a failed forward); the completion channel is
buffered with capacity 2, so the two primary copy directions can both
post completion without blocking. -/
theorem pair_close_on_first_done (fwdOk : ChanRequest → Bool)
    (rest : List LoopEvent) :
    proxyChannelStreams fwdOk (LoopEvent.doneSignal :: rest) = true ∧
    doneChan.capacity = 2 ∧
    (chanSend doneChan Unit.unit).1 = SendResult.completed ∧
    (chanSend (chanSend doneChan Unit.unit).2 Unit.unit).1 =
      SendResult.completed :=
  ⟨rfl, rfl, rfl, rfl⟩

/-- C4 amended witness: with every forward succeeding and no further
events, one done signal ends the loop, and the two completion posts to
the fresh done channel both complete. -/
theorem pair_close_on_first_done_witness :
    proxyChannelStreams (fun _ => true) [LoopEvent.doneSignal] = true ∧
    doneChan.capacity = 2 ∧
    (chanSend doneChan Unit.unit).1 = SendResult.completed ∧
    (chanSend (chanSend doneChan Unit.unit).2 Unit.unit).1 =
      SendResult.completed :=
  pair_close_on_first_done (fun _ => true) []

/-- C6.  When the forwarded request wants a reply and both wire
operations succeed, the reply relayed to the original sender is exactly
the boolean the ultimate peer replied (channel-request replies carry no
payload at this layer, and the relayed reply is sent with a nil payload,
so the payloads trivially agree); when the request does not want a reply,
no reply traffic toward the original sender is produced, whatever the
wire outcomes. -/
theorem forward_reply_relayed (req : ChanRequest) (peerAnswer : Bool) :
    (req.wantReply = true →
      (forwardChannelRequest req peerAnswer true true).2.1 = some peerAnswer) ∧
    (req.wantReply = false → ∀ sendOk replyOk : Bool,
      (forwardChannelRequest req peerAnswer sendOk replyOk).2.1 = none) := by
  constructor
  · intro h
    simp [forwardChannelRequest, h]
  · intro h sendOk replyOk
    cases sendOk <;> simp [forwardChannelRequest, h]

/-- C6 witness: a concrete want-reply pty request, answered true by the
peer, relays exactly the reply true. -/
theorem forward_reply_relayed_witness :
    (forwardChannelRequest ptyReq true true true).2.1 = some true :=
  (forward_reply_relayed ptyReq true).1 rfl

end Sshproxy
